import Mathlib

/-!
Verification of the MATLAB MEX binding
`src/interfaces/matlab/find_face_landmarks_mex/find_face_landmarks_mex.cpp`
(`mexFunction`, lines 30-164).

The file is a glue layer: it parses MATLAB arguments, drives the external
`sfl` landmark-tracking library and the external `vsal` video-source
abstraction, and marshals the accumulated per-frame results back into a
MATLAB struct array.  We embed the shim itself faithfully from the source;
the two external libraries are opaque collaborators and enter the model as
parameters (a detection oracle and a video-source description), following
the collaborator contracts stated in the specification: the tracking
session appends one frame result per pushed frame and `getSequence`
returns the accumulated list; the video source yields a finite sequence of
successful pulls, each carrying an `isUpdated` flag and a frame.
-/

namespace FFL

/-! ## MATLAB argument model (`MxArray`) -/

/-- MATLAB array class, as distinguished by the `MxArray` wrapper used in
the source (`isChar`, `isInt32`, `isDouble`, plus the other standard
numeric and non-numeric MATLAB classes). -/
inductive MxClass where
  | char
  | double
  | single
  | int8
  | uint8
  | int16
  | uint16
  | int32
  | uint32
  | int64
  | uint64
  | logical
  | cellArr
  | structArr
  deriving DecidableEq, Repr

/-- Whether a MATLAB class is numeric (`mxIsNumeric`): the floating-point
and integer classes; `char` and `logical` are not numeric. -/
def MxClass.isNumeric : MxClass → Bool
  | .double | .single | .int8 | .uint8 | .int16 | .uint16
  | .int32 | .uint32 | .int64 | .uint64 => true
  | _ => false

/-- A MATLAB argument as seen through the `MxArray` wrapper: its class and
the payloads the shim extracts (`toString`, `toInt`/`toDouble`, `toBool`).
Numeric payloads are modelled as integers; no claim depends on fractional
values. -/
structure MxArray where
  cls : MxClass
  strVal : String := ""
  numVal : Int := 0
  boolVal : Bool := false
  deriving DecidableEq, Repr

def MxArray.isChar (a : MxArray) : Bool := a.cls = .char

def MxArray.isInt32 (a : MxArray) : Bool := a.cls = .int32

def MxArray.isDouble (a : MxArray) : Bool := a.cls = .double

def MxArray.toStr (a : MxArray) : String := a.strVal

def MxArray.toInt (a : MxArray) : Int := a.numVal

def MxArray.toBool (a : MxArray) : Bool := a.boolVal

/-! ## Parsed parameters (source lines 35-60) -/

/-- The typed parameters produced by the argument-parsing block
(lines 35-60): declared with their defaults at lines 35-39 and filled in
by the mode dispatch on the second argument's class. -/
structure ParsedArgs where
  landmarksModelPath : String
  inputPath : String := ""
  device : Int := -1
  width : Int := 0
  height : Int := 0
  frame_scale : Int := 1
  preview : Bool := true
  deriving DecidableEq, Repr

/-- Embedding of the argument-parsing block of `mexFunction`
(lines 40-60): the count checks, the model-path check, and the mode
dispatch on the class of the second argument (`isChar` selects dataset
mode, `isInt32 || isDouble` selects live-video mode, anything else throws). -/
def parseArgs (prhs : List MxArray) : Except String ParsedArgs :=
  if prhs.length = 0 then .error "No parameters specified!"
  else if prhs.length < 2 then .error "Invalid number of parameters!"
  else
    match prhs with
    | a0 :: a1 :: rest =>
      if ¬ a0.isChar then
        .error "modelFile must be a string containing the path to the model file!"
      else if a1.isChar then
        .ok { landmarksModelPath := a0.toStr
              inputPath := a1.toStr
              frame_scale := match rest with
                | a2 :: _ => a2.toInt
                | [] => 1
              preview := match rest with
                | _ :: a3 :: _ => a3.toBool
                | _ => true }
      else if a1.isInt32 ∨ a1.isDouble then
        .ok { landmarksModelPath := a0.toStr
              device := a1.toInt
              width := match rest with
                | a2 :: _ => a2.toInt
                | [] => 0
              height := match rest with
                | _ :: a3 :: _ => a3.toInt
                | _ => 0
              frame_scale := match rest with
                | _ :: _ :: a4 :: _ => a4.toInt
                | _ => 1 }
      else .error "Second parameter must be either a sequence path or a device id!"
    | _ => .error "Invalid number of parameters!"

/-! ## External collaborators: frames, faces, tracking session, video source -/

/-- An opaque raw video frame (`cv::Mat`); its content only matters to the
external tracker, so it is an abstract identifier. -/
structure RawFrame where
  id : Nat
  deriving DecidableEq, Repr

/-- A 2-D integer point (`cv::Point`). -/
structure Point2i where
  x : Int
  y : Int
  deriving DecidableEq, Repr

/-- An axis-aligned integer rectangle (`cv::Rect`). -/
structure Rect where
  x : Int
  y : Int
  width : Int
  height : Int
  deriving DecidableEq, Repr

/-- A face result produced by the external tracker (`sfl::Face`): an
ordered list of landmark points and a bounding box. -/
structure Face where
  landmarks : List Point2i
  bbox : Rect
  deriving DecidableEq, Repr

/-- A per-frame result produced by the external tracker (`sfl::Frame`):
frame width, height, and the detected faces. -/
structure SflFrame where
  width : Int
  height : Int
  faces : List Face
  deriving DecidableEq, Repr

/-- The tracking session (`sfl::SequenceFaceLandmarks`), per the spec's
collaborator contract: it accumulates one frame result per pushed frame. -/
structure SflSession where
  seq : List SflFrame
  deriving DecidableEq, Repr

/-- `sfl->addFrame(frame)` (line 83): the tracker processes the frame via
the detection oracle, appends the result to the session's sequence, and
returns it. -/
def SflSession.addFrame (s : SflSession) (detect : RawFrame → SflFrame)
    (frame : RawFrame) : SflFrame × SflSession :=
  let r := detect frame
  (r, ⟨s.seq ++ [r]⟩)

/-- `sfl->getSequence()` (line 109): the accumulated frame results. -/
def SflSession.getSequence (s : SflSession) : List SflFrame := s.seq

/-- One successful pull of the video source: the `isUpdated()` flag, the
frame returned by `getFrame()`, and the value `cv::waitKey(1)` would
return during this iteration when preview is on (negative means no key). -/
structure PullEvent where
  updated : Bool
  frame : RawFrame
  key : Int
  deriving DecidableEq, Repr

/-- A constructed video source (`vsal::VideoStreamOpenCV`): whether
`open()` succeeds and the finite sequence of successful `read()` pulls it
can yield. -/
structure VideoSource where
  openOk : Bool
  pulls : List PullEvent
  deriving Repr

/-- The external environment of one call: the video-stream factory
(`vsf.create` on a path, possibly returning null) and the tracker created
from the model path and scale, represented by its detection oracle. -/
structure ExternEnv where
  createSource : String → Option VideoSource
  detect : String → Int → RawFrame → SflFrame

/-! ## Main loop (source lines 76-104) -/

/-- Embedding of the main loop (lines 76-104): for each successful
`read()`, a pull whose `isUpdated()` is false is skipped (`continue`,
line 80); otherwise the frame is pushed into the session (line 83).  When
preview is on, the rendering and overlay calls (lines 87-100) have no
effect on the result; the `waitKey` check (lines 101-102) breaks out of
the loop when a key was pressed. -/
def mainLoop (preview : Bool) (detect : RawFrame → SflFrame) :
    List PullEvent → SflSession → SflSession
  | [], s => s
  | e :: es, s =>
    if ¬ e.updated then mainLoop preview detect es s
    else
      let (_, s') := s.addFrame detect e.frame
      if preview ∧ 0 ≤ e.key then s'
      else mainLoop preview detect es s'

/-! ## Output marshaling (source lines 106-155) -/

/-- The MATLAB struct for one face: fields `landmarks` (the N-by-2 integer
matrix written at line 146) and `bbox` (the 1-by-4 row written at
line 153). -/
structure FaceStruct where
  landmarks : List Point2i
  bbox : Rect
  deriving DecidableEq, Repr

/-- The MATLAB struct for one frame: fields `faces` (left unset — `none` —
when the frame has no faces, line 127), `width` and `height`. -/
structure FrameStruct where
  faces : Option (List FaceStruct)
  width : Int
  height : Int
  deriving DecidableEq, Repr

/-- The bounding box translated to MATLAB's 1-based pixel format, as built
by lines 149-150 (`face.bbox.x + 1, face.bbox.y + 1, width, height`).
Note that the built value is then discarded: line 153 writes `face.bbox`. -/
def bboxMatlab (r : Rect) : Rect :=
  { x := r.x + 1, y := r.y + 1, width := r.width, height := r.height }

/-- Conversion of one face into its output struct (lines 137-154): the
landmark matrix gets `+= 1` applied to every coordinate (lines 142-143)
before being written; the `bbox` field is written from `face.bbox`
directly (line 153), not from the shifted matrix built at lines 149-150. -/
def convertFace (face : Face) : FaceStruct :=
  { landmarks := face.landmarks.map (fun p => ⟨p.x + 1, p.y + 1⟩)
    bbox := face.bbox }

/-- Conversion of one frame result into its output struct entry
(lines 119-155): `width` and `height` are always set (lines 124-125); when
the frame has no faces the `faces` field is skipped (line 127), otherwise
it is a 1-by-M struct array of converted faces. -/
def convertFrame (f : SflFrame) : FrameStruct :=
  { faces := if f.faces.isEmpty then none else some (f.faces.map convertFace)
    width := f.width
    height := f.height }

/-- The output marshaling of the whole result sequence (lines 109-155): a
1-by-N struct array, one entry per accumulated frame, in order. -/
def outputResults (frames : List SflFrame) : List FrameStruct :=
  frames.map convertFrame

/-! ## The whole call -/

/-- The body of `mexFunction` inside the `try` block (lines 34-158):
parse the arguments, create the tracker, create the video source from
`inputPath` via the factory (line 69 — note the parsed `device`, `width`
and `height` are not passed), fail on a null source (line 70) or a failed
`open()` (line 73), run the main loop, and marshal the session's sequence. -/
def mexBody (env : ExternEnv) (prhs : List MxArray) :
    Except String (List FrameStruct) :=
  match parseArgs prhs with
  | .error msg => .error msg
  | .ok args =>
    let detect := env.detect args.landmarksModelPath args.frame_scale
    match env.createSource args.inputPath with
    | none => .error "No video source specified!"
    | some vs =>
      if ¬ vs.openOk then .error "Failed to open video source!"
      else
        let session := mainLoop args.preview detect vs.pulls ⟨[]⟩
        .ok (outputResults session.getSequence)

/-- The observable outcome of one MEX call: either the output struct array
assigned to `plhs[0]`, or the single error signal raised by
`mexErrMsgIdAndTxt` (identifier and formatted message). -/
inductive MexOutcome where
  | output (frames : List FrameStruct)
  | errorSignal (id : String) (msg : String)
  deriving DecidableEq, Repr

/-- Embedding of `mexFunction` (lines 30-164): the whole body runs inside
one `try`; any exception is caught by the single outermost handler
(lines 160-163) and surfaced as one `mexErrMsgIdAndTxt` call with
identifier `dlib_find_face_landmarks:parsing` and message
`Error: <what>`, in which case no output is produced. -/
def mexFunction (env : ExternEnv) (prhs : List MxArray) : MexOutcome :=
  match mexBody env prhs with
  | .ok out => .output out
  | .error e => .errorSignal "dlib_find_face_landmarks:parsing" ("Error: " ++ e)

/-- A trivially inert external environment, used to evaluate the
argument-validation paths (which never consult the environment). -/
def envNull : ExternEnv :=
  { createSource := fun _ => none
    detect := fun _ _ _ => ⟨0, 0, []⟩ }

end FFL

namespace FFL

/-! ## Claim theorems -/

/-- C8: a call with zero arguments fails with the "no parameters" error and
a call with exactly one argument fails with the "invalid parameter count"
error; both outcomes are independent of the external environment (nothing
is created or opened) and produce no output. -/
theorem c8_arg_count_errors (env : ExternEnv) (a : MxArray) :
    mexFunction env [] = .errorSignal "dlib_find_face_landmarks:parsing"
        "Error: No parameters specified!" ∧
    mexFunction env [a] = .errorSignal "dlib_find_face_landmarks:parsing"
        "Error: Invalid number of parameters!" ∧
    (∀ out, mexFunction env [] ≠ .output out) ∧
    (∀ out, mexFunction env [a] ≠ .output out) := by
  refine ⟨rfl, rfl, ?_, ?_⟩ <;> intro out h <;> simp [mexFunction, mexBody, parseArgs] at h

/-- C9: a call with at least two arguments whose first argument is not a
string fails with the "model path must be a string" error, for every
environment and regardless of the remaining arguments. -/
theorem c9_nonstring_model_path (env : ExternEnv) (a b : MxArray) (rest : List MxArray)
    (h : a.isChar = false) :
    mexFunction env (a :: b :: rest) = .errorSignal "dlib_find_face_landmarks:parsing"
      "Error: modelFile must be a string containing the path to the model file!" := by
  have hlen : ¬ (rest.length + 1 + 1 < 2) := by omega
  simp [mexFunction, mexBody, parseArgs, h, hlen]

theorem c9_witness :
    MxArray.isChar ⟨.double, "", 5, false⟩ = false ∧
    mexFunction envNull [⟨.double, "", 5, false⟩, ⟨.char, "x", 0, false⟩]
      = .errorSignal "dlib_find_face_landmarks:parsing"
        "Error: modelFile must be a string containing the path to the model file!" :=
  ⟨rfl, c9_nonstring_model_path envNull ⟨.double, "", 5, false⟩ ⟨.char, "x", 0, false⟩ [] rfl⟩

/-- C10: when the video-stream factory returns a null pointer for the
parsed input path, the call fails with "No video source specified!" and
produces no output; the null check precedes the `open()` call, so no open
is attempted on the missing source. -/
theorem c10_null_source (env : ExternEnv) (prhs : List MxArray) (args : ParsedArgs)
    (h1 : parseArgs prhs = .ok args) (h2 : env.createSource args.inputPath = none) :
    mexFunction env prhs = .errorSignal "dlib_find_face_landmarks:parsing"
        "Error: No video source specified!" ∧
    ∀ out, mexFunction env prhs ≠ .output out := by
  have hb : mexBody env prhs = .error "No video source specified!" := by
    simp [mexBody, h1, h2]
  constructor
  · simp [mexFunction, hb]
  · intro out h
    simp [mexFunction, hb] at h

theorem c10_witness :
    parseArgs [⟨.char, "m", 0, false⟩, ⟨.char, "seq", 0, false⟩]
      = .ok ⟨"m", "seq", -1, 0, 0, 1, true⟩ ∧
    envNull.createSource "seq" = none ∧
    (mexFunction envNull [⟨.char, "m", 0, false⟩, ⟨.char, "seq", 0, false⟩]
      = .errorSignal "dlib_find_face_landmarks:parsing" "Error: No video source specified!" ∧
     ∀ out, mexFunction envNull [⟨.char, "m", 0, false⟩, ⟨.char, "seq", 0, false⟩]
      ≠ .output out) :=
  ⟨rfl, rfl, c10_null_source envNull _ ⟨"m", "seq", -1, 0, 0, 1, true⟩ rfl rfl⟩

/-- C7: every call either returns the body's output, or — when the body
raises any exception, from argument parsing, source creation/opening, or
the loop — the single outermost handler surfaces exactly one formatted
error message (`Error: <what>` under one fixed identifier) and the call
produces no output value. -/
theorem c7_single_error_boundary (env : ExternEnv) (prhs : List MxArray) :
    (∃ out, mexBody env prhs = .ok out ∧ mexFunction env prhs = .output out) ∨
    (∃ msg, mexBody env prhs = .error msg ∧
      mexFunction env prhs = .errorSignal "dlib_find_face_landmarks:parsing"
        ("Error: " ++ msg) ∧
      ∀ out, mexFunction env prhs ≠ .output out) := by
  cases h : mexBody env prhs with
  | ok out =>
    exact .inl ⟨out, rfl, by simp [mexFunction, h]⟩
  | error e =>
    refine .inr ⟨e, rfl, by simp [mexFunction, h], ?_⟩
    intro out hout
    simp [mexFunction, h] at hout

end FFL

namespace FFL

/-- C4: the marshaled output has exactly one entry per accumulated frame
result, in frame order; every entry carries that frame's `width` and
`height`, and a frame with no detected faces yields an entry whose `faces`
field is left unset. -/
theorem c4_output_shape (frames : List SflFrame) (i : Nat) (fr : SflFrame)
    (h : frames[i]? = some fr) :
    (outputResults frames).length = frames.length ∧
    ∃ e, (outputResults frames)[i]? = some e ∧ e.width = fr.width ∧
      e.height = fr.height ∧ (fr.faces = [] → e.faces = none) := by
  refine ⟨by simp [outputResults], convertFrame fr, ?_, rfl, rfl, ?_⟩
  · simp [outputResults, List.getElem?_map, h]
  · intro hf
    simp [convertFrame, hf]

theorem c4_witness :
    ([⟨640, 480, []⟩] : List SflFrame)[0]? = some ⟨640, 480, []⟩ ∧
    ((outputResults [⟨640, 480, []⟩]).length = ([⟨640, 480, []⟩] : List SflFrame).length ∧
     ∃ e, (outputResults [⟨640, 480, []⟩])[0]? = some e ∧ e.width = 640 ∧
       e.height = 480 ∧ (([] : List Face) = [] → e.faces = none)) :=
  ⟨rfl, c4_output_shape [⟨640, 480, []⟩] 0 ⟨640, 480, []⟩ rfl⟩

/-- C6: every landmark point of every emitted face equals the internal
0-based point shifted by exactly +1 in both x and y. -/
theorem c6_landmarks_shifted (f : SflFrame) (j : Nat) (face : Face)
    (hj : f.faces[j]? = some face) (i : Nat) (p : Point2i)
    (hi : face.landmarks[i]? = some p) :
    ∃ l e, (convertFrame f).faces = some l ∧ l[j]? = some e ∧
      e.landmarks[i]? = some ⟨p.x + 1, p.y + 1⟩ := by
  have hne : f.faces.isEmpty = false := by
    cases hfe : f.faces with
    | nil => rw [hfe] at hj; simp at hj
    | cons a as => simp [hfe]
  refine ⟨f.faces.map convertFace, convertFace face, ?_, ?_, ?_⟩
  · simp [convertFrame, hne]
  · simp [List.getElem?_map, hj]
  · simp [convertFace, List.getElem?_map, hi]

theorem c6_witness :
    (SflFrame.faces ⟨640, 480, [⟨[⟨2, 3⟩], ⟨4, 5, 6, 7⟩⟩]⟩)[0]?
      = some ⟨[⟨2, 3⟩], ⟨4, 5, 6, 7⟩⟩ ∧
    (Face.landmarks ⟨[⟨2, 3⟩], ⟨4, 5, 6, 7⟩⟩)[0]? = some ⟨2, 3⟩ ∧
    ∃ l e, (convertFrame ⟨640, 480, [⟨[⟨2, 3⟩], ⟨4, 5, 6, 7⟩⟩]⟩).faces = some l ∧
      l[0]? = some e ∧ e.landmarks[0]? = some ⟨2 + 1, 3 + 1⟩ :=
  ⟨rfl, rfl,
    c6_landmarks_shifted ⟨640, 480, [⟨[⟨2, 3⟩], ⟨4, 5, 6, 7⟩⟩]⟩ 0
      ⟨[⟨2, 3⟩], ⟨4, 5, 6, 7⟩⟩ rfl 0 ⟨2, 3⟩ rfl⟩

/-- An environment whose source yields a single updated pull and whose
tracker reports one face per frame, with landmark (2,3) and bounding box
(0,0,10,10); used to evaluate the output-marshaling path end to end. -/
def envOneFace : ExternEnv :=
  { createSource := fun _ => some { openOk := true, pulls := [⟨true, ⟨0⟩, -1⟩] }
    detect := fun _ _ _ => ⟨640, 480, [⟨[⟨2, 3⟩], ⟨0, 0, 10, 10⟩⟩]⟩ }

/-- C1: the claim fails on the code.  The emitted `bbox` field is the
internal 0-based `face.bbox` unchanged (line 153); the +1-translated box
built at lines 149-150 is discarded.  A full call on a one-face frame with
internal bbox (0,0,10,10) emits bbox (0,0,10,10), while the claim demands
the translated (1,1,10,10), even though the landmarks of the same face are
shifted. -/
theorem c1_bbox_emitted_unshifted :
    (∀ face : Face, (convertFace face).bbox = face.bbox) ∧
    mexFunction envOneFace [⟨.char, "m", 0, false⟩, ⟨.char, "seq", 0, false⟩]
      = .output [⟨some [⟨[⟨3, 4⟩], ⟨0, 0, 10, 10⟩⟩], 640, 480⟩] ∧
    bboxMatlab ⟨0, 0, 10, 10⟩ = ⟨1, 1, 10, 10⟩ ∧
    (⟨0, 0, 10, 10⟩ : Rect) ≠ ⟨1, 1, 10, 10⟩ := by
  refine ⟨fun face => rfl, rfl, rfl, by decide⟩

end FFL

namespace FFL

/-- Helper: the main loop consumes a prefix of the available pulls,
appending exactly the detection results of the updated pulls of that
prefix to the session; without preview the whole list is consumed. -/
theorem mainLoop_seq_append (preview : Bool) (detect : RawFrame → SflFrame) :
    ∀ (pulls : List PullEvent) (s : SflSession),
    ∃ p rest, pulls = p ++ rest ∧
      (mainLoop preview detect pulls s).seq
        = s.seq ++ (p.filter (fun e => e.updated)).map (fun e => detect e.frame) ∧
      (preview = false → rest = []) := by
  intro pulls
  induction pulls with
  | nil =>
    intro s
    exact ⟨[], [], rfl, by simp [mainLoop], fun _ => rfl⟩
  | cons e es ih =>
    intro s
    by_cases hu : e.updated = true
    · by_cases hk : (preview ∧ 0 ≤ e.key)
      · refine ⟨[e], es, rfl, ?_, ?_⟩
        · simp [mainLoop, hu, hk, SflSession.addFrame]
        · intro hp
          rw [hp] at hk
          simp at hk
      · obtain ⟨p, rest, hsplit, hseq, hrest⟩ := ih ⟨s.seq ++ [detect e.frame]⟩
        refine ⟨e :: p, rest, by simp [hsplit], ?_, hrest⟩
        have : mainLoop preview detect (e :: es) s
            = mainLoop preview detect es ⟨s.seq ++ [detect e.frame]⟩ := by
          simp [mainLoop, hu, hk, SflSession.addFrame]
        rw [this, hseq]
        simp [hu]
    · obtain ⟨p, rest, hsplit, hseq, hrest⟩ := ih s
      refine ⟨e :: p, rest, by simp [hsplit], ?_, hrest⟩
      have : mainLoop preview detect (e :: es) s = mainLoop preview detect es s := by
        simp [mainLoop, hu]
      rw [this, hseq]
      simp [hu]

/-- C5: a pull reported "not updated" is never pushed and contributes no
entry: the session's accumulated sequence — and hence the marshaled
output — consists, in order, of exactly the detection results of the
updated pulls among the pulls the loop consumed, so its length is the
number of updated pulls, not the number of raw pulls; without preview the
loop consumes every raw pull. -/
theorem c5_not_updated_skipped (preview : Bool) (detect : RawFrame → SflFrame)
    (pulls : List PullEvent) :
    ∃ consumed rest, pulls = consumed ++ rest ∧
      (mainLoop preview detect pulls ⟨[]⟩).getSequence
        = (consumed.filter (fun e => e.updated)).map (fun e => detect e.frame) ∧
      (outputResults (mainLoop preview detect pulls ⟨[]⟩).getSequence).length
        = (consumed.filter (fun e => e.updated)).length ∧
      (preview = false → rest = []) := by
  obtain ⟨p, rest, hsplit, hseq, hrest⟩ := mainLoop_seq_append preview detect pulls ⟨[]⟩
  refine ⟨p, rest, hsplit, ?_, ?_, hrest⟩
  · simpa [SflSession.getSequence] using hseq
  · simp [SflSession.getSequence, outputResults, hseq]

end FFL

namespace FFL

/-- C2: the claim fails on the code.  In live-device mode the parsed
`device`, `width` and `height` are dead: line 69 passes `inputPath` — left
at its default empty string in this mode — to the factory, so the call's
outcome is identical for any device index, width and height, and the
string handed to `vsf.create` is `""`, not an identifier derived from the
device arguments. -/
theorem c2_device_args_ignored (env : ExternEnv) (m : String) (d dd w ww ht hht : Int) :
    (∃ args, parseArgs [⟨.char, m, 0, false⟩, ⟨.int32, "", d, false⟩] = .ok args ∧
      args.device = d ∧ args.inputPath = "") ∧
    mexFunction env [⟨.char, m, 0, false⟩, ⟨.int32, "", d, false⟩,
        ⟨.int32, "", w, false⟩, ⟨.int32, "", ht, false⟩]
      = mexFunction env [⟨.char, m, 0, false⟩, ⟨.int32, "", dd, false⟩,
        ⟨.int32, "", ww, false⟩, ⟨.int32, "", hht, false⟩] ∧
    mexFunction env [⟨.char, m, 0, false⟩, ⟨.int32, "", d, false⟩]
      = mexFunction env [⟨.char, m, 0, false⟩, ⟨.int32, "", dd, false⟩] :=
  ⟨⟨⟨m, "", d, 0, 0, 1, true⟩, rfl, rfl, rfl⟩, rfl, rfl⟩

/-- Helper: once argument parsing has succeeded, the body's outcome is the
output, the null-source error or the open-failure error. -/
theorem mexBody_after_parse (env : ExternEnv) (prhs : List MxArray)
    (args : ParsedArgs) (h : parseArgs prhs = .ok args) :
    (∃ out, mexBody env prhs = .ok out) ∨
    mexBody env prhs = .error "No video source specified!" ∨
    mexBody env prhs = .error "Failed to open video source!" := by
  cases hcs : env.createSource args.inputPath with
  | none =>
    exact .inr (.inl (by simp [mexBody, h, hcs]))
  | some vs =>
    by_cases ho : vs.openOk = true
    · exact .inl ⟨outputResults (mainLoop args.preview
        (env.detect args.landmarksModelPath args.frame_scale) vs.pulls ⟨[]⟩).getSequence,
        by simp [mexBody, h, hcs, ho]⟩
    · simp only [Bool.not_eq_true] at ho
      exact .inr (.inr (by simp [mexBody, h, hcs, ho]))

/-- Helper: once argument parsing has succeeded, the call can no longer
raise the "sequence path or device id" error. -/
theorem mexFunction_no_dispatch_error (env : ExternEnv) (prhs : List MxArray)
    (args : ParsedArgs) (h : parseArgs prhs = .ok args) :
    mexFunction env prhs ≠ .errorSignal "dlib_find_face_landmarks:parsing"
      "Error: Second parameter must be either a sequence path or a device id!" := by
  intro hmf
  rcases mexBody_after_parse env prhs args h with ⟨out, hb⟩ | hb | hb
  · simp [mexFunction, hb] at hmf
  · simp [mexFunction, hb] at hmf
  · simp [mexFunction, hb] at hmf

end FFL

namespace FFL

/-- C3 counterexample: an `int16` second argument is numeric, yet the call
raises the "sequence path or device id" error instead of selecting
live-device mode — line 53 accepts only the `int32` and `double` classes. -/
theorem c3_counterexample_int16 :
    MxClass.isNumeric .int16 = true ∧
    mexFunction envNull [⟨.char, "m", 0, false⟩, ⟨.int16, "", 5, false⟩]
      = .errorSignal "dlib_find_face_landmarks:parsing"
        "Error: Second parameter must be either a sequence path or a device id!" :=
  ⟨rfl, rfl⟩

/-- C3 amended: with at least two arguments and a string first argument,
the "sequence path or device id" error is raised if and only if the second
argument's class is neither `char` nor `int32` nor `double`; in
particular, only the `int32` and `double` numeric classes select
live-device mode, and any other numeric class raises the error. -/
theorem c3_mode_dispatch (env : ExternEnv) (a b : MxArray) (rest : List MxArray)
    (ha : a.isChar = true) :
    (mexFunction env (a :: b :: rest) = .errorSignal "dlib_find_face_landmarks:parsing"
        "Error: Second parameter must be either a sequence path or a device id!")
      ↔ (b.isChar = false ∧ b.isInt32 = false ∧ b.isDouble = false) := by
  have hlen0 : ¬ (rest.length + 1 + 1 = 0) := by omega
  have hlen : ¬ (rest.length + 1 + 1 < 2) := by omega
  constructor
  · intro hmf
    by_cases h1 : b.isChar = true
    · exfalso
      have hex : ∃ args, parseArgs (a :: b :: rest) = .ok args := by
        simp only [parseArgs, List.length_cons, hlen0, hlen, ha, h1]
        simp
      obtain ⟨args, hargs⟩ := hex
      exact mexFunction_no_dispatch_error env (a :: b :: rest) args hargs hmf
    · by_cases h2 : b.isInt32 = true
      · exfalso
        have hex : ∃ args, parseArgs (a :: b :: rest) = .ok args := by
          simp only [parseArgs, List.length_cons, hlen0, hlen, ha, h1, h2]
          simp
        obtain ⟨args, hargs⟩ := hex
        exact mexFunction_no_dispatch_error env (a :: b :: rest) args hargs hmf
      · by_cases h3 : b.isDouble = true
        · exfalso
          have hex : ∃ args, parseArgs (a :: b :: rest) = .ok args := by
            simp only [parseArgs, List.length_cons, hlen0, hlen, ha, h1, h2, h3]
            simp
          obtain ⟨args, hargs⟩ := hex
          exact mexFunction_no_dispatch_error env (a :: b :: rest) args hargs hmf
        · simp only [Bool.not_eq_true] at h1 h2 h3
          exact ⟨h1, h2, h3⟩
  · rintro ⟨h1, h2, h3⟩
    have hpe : parseArgs (a :: b :: rest)
        = .error "Second parameter must be either a sequence path or a device id!" := by
      simp [parseArgs, ha, h1, h2, h3, hlen0, hlen]
    simp [mexFunction, mexBody, hpe]

theorem c3_mode_dispatch_witness :
    MxArray.isChar ⟨.char, "m", 0, false⟩ = true ∧
    ((mexFunction envNull [⟨.char, "m", 0, false⟩, ⟨.structArr, "", 0, false⟩]
        = .errorSignal "dlib_find_face_landmarks:parsing"
          "Error: Second parameter must be either a sequence path or a device id!")
      ↔ (MxArray.isChar ⟨.structArr, "", 0, false⟩ = false ∧
         MxArray.isInt32 ⟨.structArr, "", 0, false⟩ = false ∧
         MxArray.isDouble ⟨.structArr, "", 0, false⟩ = false)) :=
  ⟨rfl, c3_mode_dispatch envNull ⟨.char, "m", 0, false⟩ ⟨.structArr, "", 0, false⟩ [] rfl⟩

end FFL
